import Mathlib

/-!
Verification of the feishu_task webhook core: a shallow embedding of the
CI signature verifier, the CI status normalizer, the commit-metadata
extractor (`app/services/ci.py`), the CI webhook dispatcher
(`app/main.py`), the chat-platform event endpoint (`app/main.py`), the
task-store operations (`app/bitable.py`) and the 48-hour inactivity
sweep (`app/services/scheduler.py`), together with theorems settling
the specification claims about them.

Conventions of the embedding:
* Python `str` values are `String`; where the code splits or scans a
  string character-wise we work on its `List Char` data.
* Python dictionary fields that may be absent (or `None`) are `Option`;
  `dict.get(k, "")` is `Option.getD o ""`, and Python truthiness of a
  string or integer is the test against `""` / `0`.
* The HMAC digests and the SHA-1 digest are uninterpreted functions
  (the code delegates them to `hashlib` / `hmac`); theorems quantify
  over them.
* Paths of the Python code that raise and are caught (`except` blocks
  returning a default) are modelled by the corresponding default result.
-/


/-- The `CIState` enum of `app/services/ci.py`. -/
inductive CIState where
  | unknown
  | pending
  | green
  | red
deriving DecidableEq

/-- The `TaskStatus` enum of `app/bitable.py`. -/
inductive TaskStatus where
  | draft
  | assigned
  | inProgress
  | returned
  | done
  | archived
  | ciPass
  | ciFail
deriving DecidableEq

/-- The string value of each `TaskStatus` member (`TaskStatus.<X>.value`). -/
def TaskStatus.value : TaskStatus → String
  | .draft => "Draft"
  | .assigned => "Assigned"
  | .inProgress => "InProgress"
  | .returned => "Returned"
  | .done => "Done"
  | .archived => "Archived"
  | .ciPass => "CI Pass"
  | .ciFail => "CI Fail"

/-- A task record as read from the Bitable backend: the `fields` dict of a
record plus its `record_id` (see `BitableClient._get_all_records`).
Fields that the dispatcher and the sweep read through `.get` are optional.
(Named `TaskRec` because `Task` is taken by the Lean core library.) -/
structure TaskRec where
  record_id : String
  github_commit_sha : Option String := none
  child_chat_id : Option String := none
  status : Option String := none
  assignee_id : Option String := none
  title : Option String := none
  last_modified_time : Option Nat := none
deriving DecidableEq

/-- The `workflow_run` / `check_suite` sub-object of a CI payload.
`conclusion` is doubly optional: the outer `none` means the key is absent
(a direct `["conclusion"]` access then raises `KeyError`), `some none`
means the key is present with `null` (or a non-string), and
`some (some s)` a string value.  The remaining fields are read with
`.get(k, "")`, so absent and `null` coincide. -/
structure RunObj where
  conclusion : Option (Option String) := none
  head_sha : Option String := none
  html_url : Option String := none
  head_branch : Option String := none
deriving DecidableEq

/-- An entry of the `commits` array of a CI payload. -/
structure CommitEntry where
  id : Option String := none
  message : Option String := none
  url : Option String := none
deriving DecidableEq

/-- The top-level `commit` object of a bare status event payload. -/
structure CommitMeta where
  message : Option String := none
  html_url : Option String := none
deriving DecidableEq

/-- The `repository` object of a CI payload. -/
structure RepoObj where
  full_name : Option String := none
deriving DecidableEq

/-- A CI webhook JSON payload, restricted to the keys that
`CIService.parse_github_status` and `CIService.extract_commit_info`
read.  `statusKey` records whether the top-level key `"status"` is
present (tested by `"status" in payload`). -/
structure Payload where
  action : Option String := none
  workflow_run : Option RunObj := none
  check_suite : Option RunObj := none
  statusKey : Bool := false
  state : Option String := none
  sha : Option String := none
  commit : Option CommitMeta := none
  repository : Option RepoObj := none
  commits : List CommitEntry := []
deriving DecidableEq

/-- Embedding of `CIService.parse_github_status` (`app/services/ci.py`).  Returns
`none` exactly where the Python code returns `None`: the `except` path
taken when the primary event object lacks its `conclusion` key. -/
def parse_github_status (p : Payload) : Option CIState :=
  match p.workflow_run with
  | some wr =>
    match wr.conclusion with
    | none => none
    | some v =>
      if v = some "success" then some CIState.green
      else if v = some "failure" ∨ v = some "cancelled" ∨ v = some "timed_out" then
        some CIState.red
      else if v = some "waiting" ∨ v = some "queued" ∨ v = some "in_progress" then
        some CIState.pending
      else some CIState.unknown
  | none =>
    match p.check_suite with
    | some cs =>
      match cs.conclusion with
      | none => none
      | some v =>
        if v = some "success" then some CIState.green
        else if v = some "failure" ∨ v = some "cancelled" ∨ v = some "timed_out" then
          some CIState.red
        else if v = some "waiting" ∨ v = some "queued" ∨ v = some "in_progress" then
          some CIState.pending
        else some CIState.unknown
    | none =>
      if p.action = some "status" then
        let v := p.state
        if v = some "success" then some CIState.green
        else if v = some "failure" ∨ v = some "error" then some CIState.red
        else if v = some "pending" then some CIState.pending
        else some CIState.unknown
      else some CIState.unknown

/-- Result record of `CIService.extract_commit_info`. -/
structure CommitInfo where
  sha : String
  message : String
  url : String
  branch : String
  repo : String
deriving DecidableEq

/-- Embedding of `CIService.extract_commit_info` (`app/services/ci.py`): fills the
fields from the primary event object (`workflow_run`, else
`check_suite`, else the bare status shape), then falls back to
`commits[0]` for `sha`, `message` and `url` when they are still empty. -/
def extract_commit_info (p : Payload) : CommitInfo :=
  let repo := match p.repository with
    | some r => r.full_name.getD ""
    | none => ""
  let base : CommitInfo :=
    match p.workflow_run with
    | some run => ⟨run.head_sha.getD "", "", run.html_url.getD "", run.head_branch.getD "", repo⟩
    | none =>
      match p.check_suite with
      | some suite =>
        ⟨suite.head_sha.getD "", "", suite.html_url.getD "", suite.head_branch.getD "", repo⟩
      | none =>
        if p.statusKey then
          ⟨p.sha.getD "",
           (match p.commit with | some c => c.message.getD "" | none => ""),
           (match p.commit with | some c => c.html_url.getD "" | none => ""),
           "", repo⟩
        else ⟨"", "", "", "", repo⟩
  match p.commits with
  | [] => base
  | c :: _ =>
    { base with
      sha := if base.sha = "" then c.id.getD "" else base.sha
      message := if base.message = "" then c.message.getD "" else base.message
      url := if base.url = "" then c.url.getD "" else base.url }

/-- The HMAC hexdigest primitives used by
`CIService.verify_github_signature`; `hmac.new(key, msg, digestmod).hexdigest()`
is uninterpreted: each field takes the key and the message and returns
the hex digest string. -/
structure HmacImpl where
  sha1 : String → String → String
  sha256 : String → String → String

/-- Python `signature.split("=", 1)` followed by unpacking into two
variables: `none` when the string holds no `=` (the unpacking then
raises `ValueError`, caught by the code). -/
def splitOnceEq : List Char → Option (List Char × List Char)
  | [] => none
  | c :: cs =>
    if c = '=' then some ([], cs)
    else (splitOnceEq cs).map (fun q => (c :: q.1, q.2))

/-- Python `algo.lower() == t` for an ASCII target `t`. -/
def lowerEq (cs t : List Char) : Bool :=
  cs.map Char.toLower == t

/-- Embedding of `CIService.verify_github_signature` (`app/services/ci.py`).
`secret` is `self.github_secret`; a missing (or falsy empty) secret skips
verification.  `hmac.compare_digest` is functionally string equality. -/
def verify_github_signature (h : HmacImpl) (secret : Option String)
    (payload : String) (signature : String) : Bool :=
  if secret.getD "" = "" then true
  else
    match splitOnceEq signature.data with
    | none => false
    | some (algoPart, sigPart) =>
      if lowerEq algoPart "sha1".data then
        (h.sha1 (secret.getD "") payload).data == sigPart
      else if lowerEq algoPart "sha256".data then
        (h.sha256 (secret.getD "") payload).data == sigPart
      else false

/-- Embedding of `BitableClient.get_task_by_commit` (`app/bitable.py`): records whose
`github_commit_sha` field equals the given SHA, first one if any. -/
def get_task_by_commit (store : List TaskRec) (commit_sha : String) : Option TaskRec :=
  (store.filter (fun t => t.github_commit_sha == some commit_sha)).head?

/-- Embedding of `BitableClient.update_task_status` (`app/bitable.py`): set the
`status` field of the record with the given id to `status.value`. -/
def update_task_status (store : List TaskRec) (record_id : String)
    (status : TaskStatus) : List TaskRec :=
  store.map (fun t =>
    if t.record_id = record_id then { t with status := some status.value } else t)

/-- The notification step of the CI webhook handler (`app/main.py`,
`if task.get("child_chat_id"): await feishu_client.send_message(...)`):
the messages sent, as (chat id, text) pairs. -/
def notifyList (task : TaskRec) (message : String) : List (String × String) :=
  if task.child_chat_id.getD "" = "" then [] else [(task.child_chat_id.getD "", message)]

/-- Outcome of one CI webhook request: HTTP status code, the task store
after the request, and the chat messages sent. -/
structure CIResult where
  status : Nat
  store : List TaskRec
  messages : List (String × String)
deriving DecidableEq

/-- Steps 5 of the CI webhook handler (`app/main.py` lines 140-155): the
status-dependent transition applied to a resolved task, with its
notification and response. -/
def applyCIResult (store : List TaskRec) (task : TaskRec) (status : Option CIState)
    (commit_sha repo : String) : CIResult :=
  if status = some CIState.green then
    let store2 := update_task_status store task.record_id TaskStatus.ciPass
    let message := "✅ CI/CD 成功: " ++ repo ++ " at " ++ commit_sha.take 7
    ⟨204, store2, notifyList task message⟩
  else if status = some CIState.red then
    let store2 := update_task_status store task.record_id TaskStatus.ciFail
    let message := "❌ CI/CD 失败: " ++ repo ++ " at " ++ commit_sha.take 7
    ⟨204, store2, notifyList task message⟩
  else
    ⟨200, store, []⟩

/-- One CI webhook request: the `X-GitHub-Event` header, the
`X-Hub-Signature-256` header, the raw body and its parsed JSON payload. -/
structure CIRequest where
  event : String
  signature : String
  body : String
  payload : Payload

/-- Embedding of `github_webhook_endpoint` (`app/main.py`): verify the signature,
ignore non-`check_suite` events, parse the state and the commit info,
reject a missing SHA with 400, acknowledge an unknown SHA with 200, and
otherwise apply the transition. -/
def github_webhook_endpoint (h : HmacImpl) (secret : Option String)
    (store : List TaskRec) (req : CIRequest) : CIResult :=
  if verify_github_signature h secret req.body req.signature = false then
    ⟨403, store, []⟩
  else if req.event ≠ "check_suite" then
    ⟨200, store, []⟩
  else
    let status := parse_github_status req.payload
    let info := extract_commit_info req.payload
    if info.sha = "" then ⟨400, store, []⟩
    else
      match get_task_by_commit store info.sha with
      | none => ⟨200, store, []⟩
      | some task => applyCIResult store task status info.sha info.repo

/-- One chat-platform event request: the three `X-Lark-*` headers (absent
when the header is missing) and the raw body. -/
structure ChatRequest where
  timestamp : Option String := none
  nonce : Option String := none
  signature : Option String := none
  body : String

/-- Outcome of one chat event request.  The two `sdk*` outcomes delegate
the response to the vendor SDK (`event_handler.do`), whose status code
is carried along; the two `forbidden*` outcomes are the endpoint's own
403 responses ("Missing signature headers" / "Signature verification
failed"). -/
inductive ChatOutcome where
  | sdkChallenge (sdkStatus : Nat)
  | forbiddenMissing
  | forbiddenBadSig
  | sdkEvent (sdkStatus : Nat)
deriving DecidableEq

/-- HTTP status code of a chat event outcome. -/
def ChatOutcome.status : ChatOutcome → Nat
  | .sdkChallenge s => s
  | .forbiddenMissing => 403
  | .forbiddenBadSig => 403
  | .sdkEvent s => s

/-- Tests whether `sub` starts the second list (character-wise). -/
def leadsWith : List Char → List Char → Bool
  | [], _ => true
  | _ :: _, [] => false
  | a :: as, b :: bs => a == b && leadsWith as bs

/-- Substring containment on character lists (Python `sub in s` on bytes). -/
def containsSub (sub : List Char) : List Char → Bool
  | [] => leadsWith sub []
  | c :: cs => leadsWith sub (c :: cs) || containsSub sub cs

/-- The challenge test of `feishu_event` (`app/main.py` line 51):
`b'"type":"url_verification"' in body`. -/
def hasMarker (body : String) : Bool :=
  containsSub "\"type\":\"url_verification\"".data body.data

/-- Embedding of `feishu_event` (`app/main.py`): challenge bodies go straight to the
SDK; otherwise the three headers are required (Python truthiness, so an
empty header counts as missing) and the signature must equal
`sha1(timestamp + nonce + encrypt_key + body)` with a missing encrypt
key replaced by the empty string; verified events go to the SDK with
its own verification patched out.  `sha1h` is the uninterpreted
`hashlib.sha1(...).hexdigest()`, `sdk` the uninterpreted SDK response
status for a body. -/
def feishu_event (sha1h : String → String) (sdk : String → Nat)
    (encrypt_key : Option String) (req : ChatRequest) : ChatOutcome :=
  if hasMarker req.body then ChatOutcome.sdkChallenge (sdk req.body)
  else if req.timestamp.getD "" = "" ∨ req.nonce.getD "" = "" ∨ req.signature.getD "" = "" then
    ChatOutcome.forbiddenMissing
  else
    let calcSig := sha1h (req.timestamp.getD "" ++ req.nonce.getD "" ++
      encrypt_key.getD "" ++ req.body)
    if req.signature.getD "" ≠ calcSig then ChatOutcome.forbiddenBadSig
    else ChatOutcome.sdkEvent (sdk req.body)

/-- The constant part of the inactivity reminder before the assignee id
(`app/services/scheduler.py` line 42). -/
def reminderPre (t : TaskRec) : String :=
  "滴滴！请注意，任务「" ++ t.title.getD "未命名" ++
    "」已超过48小时无更新，请及时处理。\n\n<at user_id=\""

/-- The text of the inactivity reminder message
(`app/services/scheduler.py` line 42). -/
def reminderText (t : TaskRec) : String :=
  reminderPre t ++ t.assignee_id.getD "" ++ "\"></at>"

/-- The status filter of `check_inactive_tasks`
(`app/services/scheduler.py` lines 20-23). -/
def statusOkB (t : TaskRec) : Bool :=
  t.status == some TaskStatus.assigned.value ||
    t.status == some TaskStatus.inProgress.value

/-- The body of the reminder loop of `check_inactive_tasks` for one
task: `none` when the task is skipped, otherwise the (chat id, text)
message sent.  `now` and the stored timestamp are epoch milliseconds;
`now - datetime.fromtimestamp(lm / 1000) > timedelta(hours=48)` is
`172800000 + lm < now`.  A missing or zero timestamp is skipped
(`if not last_modified_timestamp`). -/
def sweepStep (now : Nat) (t : TaskRec) : Option (String × String) :=
  match t.last_modified_time with
  | none => none
  | some lm =>
    if lm = 0 then none
    else if 172800000 + lm < now then
      if t.child_chat_id.getD "" = "" ∨ t.assignee_id.getD "" = "" then none
      else some (t.child_chat_id.getD "", reminderText t)
    else none

/-- The reminder loop of `check_inactive_tasks` (`app/services/scheduler.py`
lines 17-48): the messages one sweep at time `now` would send, in task
order, given the fetched task list `tasks`.  In the real program this
loop is only ever reached if the preceding fetch succeeds. -/
def check_inactive_tasks_loop (now : Nat) (tasks : List TaskRec) : List (String × String) :=
  (tasks.filter statusOkB).filterMap (sweepStep now)

/-- The names of the methods the class `BitableClient` defines
(`app/bitable.py` lines 30-144). -/
def bitableClientMethods : List String :=
  ["__init__", "_get_all_records", "create_record", "update_record",
   "get_all_persons", "create_task", "update_task", "update_task_status",
   "get_task_by_chat_id", "get_task_by_commit"]

/-- The outcome of evaluating `bitable_client.get_all_tasks()`
(`app/services/scheduler.py` line 16) against a backend holding
`backend`: `BitableClient` defines no `get_all_tasks` attribute (it is
absent from `bitableClientMethods`, the class has no base beyond
`object` and nothing assigns the attribute elsewhere), so the attribute
lookup raises `AttributeError` before any backend request — modelled as
`none` for every backend state. -/
def get_all_tasks (_backend : List TaskRec) : Option (List TaskRec) := none

/-- Embedding of the whole `check_inactive_tasks` job
(`app/services/scheduler.py` lines 12-51): fetch all tasks, run the
reminder loop, and let the enclosing `try/except` (lines 15, 50-51)
turn any raised exception into a logged no-op.  Since the fetch call
itself raises `AttributeError`, the `none` branch — no message sent —
is the one every run takes. -/
def check_inactive_tasks (now : Nat) (backend : List TaskRec) : List (String × String) :=
  match get_all_tasks backend with
  | none => []
  | some tasks => check_inactive_tasks_loop now tasks

/-- The conclusion table the code applies inside the `workflow_run` and
`check_suite` shapes: note `error` is not in the red set and `pending`
not in the pending set for these shapes. -/
def runConclusionTable (v : Option String) : CIState :=
  if v = some "success" then CIState.green
  else if v = some "failure" ∨ v = some "cancelled" ∨ v = some "timed_out" then CIState.red
  else if v = some "waiting" ∨ v = some "queued" ∨ v = some "in_progress" then CIState.pending
  else CIState.unknown

/-- The state table the code applies to a bare status event: note
`cancelled`/`timed_out` are not in the red set and the pending set is
just `pending` for this shape. -/
def bareStateTable (v : Option String) : CIState :=
  if v = some "success" then CIState.green
  else if v = some "failure" ∨ v = some "error" then CIState.red
  else if v = some "pending" then CIState.pending
  else CIState.unknown

/-- A `workflow_run` payload whose conclusion is `error`. -/
def payloadWorkflowError : Payload :=
  { workflow_run := some { conclusion := some (some "error") } }

/-- The values the claimed primary source assigns to (sha, message, url):
the `workflow_run` object first, else the `check_suite` object, else the
bare status shape (top-level `sha` and the `commit` object), else empty. -/
def primaryFields (p : Payload) : String × String × String :=
  match p.workflow_run with
  | some run => (run.head_sha.getD "", "", run.html_url.getD "")
  | none =>
    match p.check_suite with
    | some suite => (suite.head_sha.getD "", "", suite.html_url.getD "")
    | none =>
      if p.statusKey then
        (p.sha.getD "",
         (match p.commit with | some c => c.message.getD "" | none => ""),
         (match p.commit with | some c => c.html_url.getD "" | none => ""))
      else ("", "", "")

/-- The values the `commits[0]` fallback supplies for (sha, message, url):
empty when the commits array is absent or empty. -/
def commitsFallback (p : Payload) : String × String × String :=
  match p.commits with
  | [] => ("", "", "")
  | c :: _ => (c.id.getD "", c.message.getD "", c.url.getD "")

/-- First-non-empty-wins combination of a primary and a fallback value. -/
def firstNonEmpty (a b : String) : String := if a = "" then b else a

/-- A concrete uninterpreted HMAC implementation for witnesses. -/
def hmacConst : HmacImpl := ⟨fun _ _ => "aa", fun _ _ => "bb"⟩

/-- A `check_suite` object with conclusion `success` for commit `deadbee1234`. -/
def suiteSuccess : RunObj :=
  { conclusion := some (some "success"), head_sha := some "deadbee1234" }

/-- A `check_suite` request whose SHA matches no stored task. -/
def reqUnknownSha : CIRequest :=
  { event := "check_suite", signature := "sha256=zz", body := "irrelevant",
    payload := { check_suite := some suiteSuccess } }

/-- A task tracking commit `abc1234567`. -/
def taskAbc : TaskRec :=
  { record_id := "r1", github_commit_sha := some "abc1234567",
    child_chat_id := some "oc_1", status := some "Assigned" }

/-- A `check_suite` object with conclusion `queued` for commit `abc1234567`. -/
def suiteQueued : RunObj :=
  { conclusion := some (some "queued"), head_sha := some "abc1234567" }

/-- A `check_suite` request for commit `abc1234567` whose conclusion is
`queued` (normalized to Pending). -/
def reqQueued : CIRequest :=
  { event := "check_suite", signature := "s", body := "b",
    payload := { check_suite := some suiteQueued } }

/-- The claimed eligibility for a reminder, as the claim words it: the
task's status is Assigned or InProgress and its last-modified timestamp
is older than 48 hours at sweep time `now` (both in epoch milliseconds). -/
def sweepDue (now : Nat) (t : TaskRec) : Bool :=
  statusOkB t &&
    (match t.last_modified_time with
     | some lm => decide (172800000 + lm < now)
     | none => false)

/-- The task carries both a (truthy) linked chat id and an assignee id. -/
def hasContacts (t : TaskRec) : Bool :=
  !(t.child_chat_id.getD "" == "") && !(t.assignee_id.getD "" == "")

/-- Eligibility as the code enforces it: due, contactable, and with a
nonzero stored timestamp (the code treats a zero timestamp as missing). -/
def sweepEligible (now : Nat) (t : TaskRec) : Bool :=
  sweepDue now t && !(t.last_modified_time == some 0) && hasContacts t

/-- An Assigned task with a linked chat id, an assignee id and a
last-modified timestamp of 172800000 ms — more than 48 hours old at
sweep time 345600001 ms. -/
def taskDue : TaskRec :=
  { record_id := "r0", child_chat_id := some "oc_9", status := some "Assigned",
    assignee_id := some "ou_9", title := some "T",
    last_modified_time := some 172800000 }

/-- A concrete uninterpreted SHA-1 hexdigest for witnesses. -/
def sha1Const : String → String := fun _ => "dd"

/-- A concrete SDK response status for witnesses. -/
def sdkConst : String → Nat := fun _ => 200

/-- A url-verification challenge body. -/
def challengeBody : String :=
  "\x7b\"challenge\":\"abc\",\"type\":\"url_verification\"\x7d"

/-- A challenge request carrying none of the three signature headers. -/
def reqChallengeNoHeaders : ChatRequest := { body := challengeBody }

/-- A non-challenge request missing its timestamp header. -/
def reqNoTimestamp : ChatRequest :=
  { nonce := some "2", signature := some "x", body := "mm" }

/-- A non-challenge request with complete headers and a wrong signature. -/
def reqBadSig : ChatRequest :=
  { timestamp := some "1", nonce := some "2", signature := some "xx", body := "mm" }

/-- C3 counterexample: the mapping table is not uniform across the three
shapes.  On a `workflow_run` payload with conclusion `error` the
normalizer returns `Unknown`, not `Red` as the claimed uniform table
(`failure, cancelled, timed_out, error → Red`) demands. -/
theorem parse_error_conclusion_not_red :
    parse_github_status payloadWorkflowError = some CIState.unknown ∧
      ¬ parse_github_status payloadWorkflowError = some CIState.red := by
  constructor
  · rfl
  · decide

/-- C3 (amended): `parse_github_status` normalizes by shape-specific
tables, with priority `workflow_run`, then `check_suite`, then the bare
status event: the `workflow_run`/`check_suite` table maps success → Green,
{failure, cancelled, timed_out} → Red, {waiting, queued, in_progress} →
Pending and anything else (including `error` and `pending`) → Unknown;
the bare-status table maps success → Green, {failure, error} → Red,
pending → Pending, anything else → Unknown; a payload of no recognized
shape maps to Unknown; and when the primary object lacks its
`conclusion` key the normalizer returns no state at all (`None`) instead
of one of the four values. -/
theorem parse_github_status_by_shape (p : Payload) :
    parse_github_status p =
      match p.workflow_run with
      | some wr => wr.conclusion.map runConclusionTable
      | none =>
        match p.check_suite with
        | some cs => cs.conclusion.map runConclusionTable
        | none =>
          some (if p.action = some "status" then bareStateTable p.state
            else CIState.unknown) := by
  rcases p with ⟨action, wr, cs, sk, state, sha, commit, repo, commits⟩
  cases wr with
  | some w =>
    cases hc : w.conclusion with
    | none => simp [parse_github_status, hc]
    | some v =>
      have hr : Option.map runConclusionTable (some v) = some (runConclusionTable v) := rfl
      simp only [parse_github_status, hc, hr]
      unfold runConclusionTable
      split_ifs <;> rfl
  | none =>
    cases cs with
    | some c =>
      cases hc : c.conclusion with
      | none => simp [parse_github_status, hc]
      | some v =>
        have hr : Option.map runConclusionTable (some v) = some (runConclusionTable v) := rfl
        simp only [parse_github_status, hc, hr]
        unfold runConclusionTable
        split_ifs <;> rfl
    | none =>
      by_cases ha : action = some "status"
      · simp only [parse_github_status, ha]
        try simp only [if_pos rfl]
        unfold bareStateTable
        split_ifs <;> rfl
      · simp [parse_github_status, ha]

/-- C4: with no webhook secret configured the CI signature verifier
accepts every body under every signature header. -/
theorem verify_github_signature_no_secret (h : HmacImpl) (payload signature : String) :
    verify_github_signature h none payload signature = true := by
  rfl

theorem firstNonEmpty_empty_right (a : String) : firstNonEmpty a "" = a := by
  unfold firstNonEmpty
  by_cases h : a = "" <;> simp [h]

/-- C9: each of the (sha, message, url) fields of the extracted commit
info is the primary event object's value when that is non-empty, and the
`commits[0]` fallback value otherwise — so a field once set non-empty by
the primary source is never overwritten by the fallback. -/
theorem extract_commit_info_first_nonempty (p : Payload) :
    (extract_commit_info p).sha =
        firstNonEmpty (primaryFields p).1 (commitsFallback p).1 ∧
      (extract_commit_info p).message =
        firstNonEmpty (primaryFields p).2.1 (commitsFallback p).2.1 ∧
      (extract_commit_info p).url =
        firstNonEmpty (primaryFields p).2.2 (commitsFallback p).2.2 := by
  rcases p with ⟨action, wr, cs, sk, state, sha, commit, repo, commits⟩
  cases commits with
  | nil =>
    cases wr with
    | some w =>
      simp [extract_commit_info, primaryFields, commitsFallback, firstNonEmpty_empty_right]
    | none =>
      cases cs with
      | some c =>
        simp [extract_commit_info, primaryFields, commitsFallback, firstNonEmpty_empty_right]
      | none =>
        cases sk <;>
          simp [extract_commit_info, primaryFields, commitsFallback, firstNonEmpty_empty_right]
  | cons c rest =>
    cases wr with
    | some w =>
      simp [extract_commit_info, primaryFields, commitsFallback, firstNonEmpty]
    | none =>
      cases cs with
      | some cobj =>
        simp [extract_commit_info, primaryFields, commitsFallback, firstNonEmpty]
      | none =>
        cases sk <;>
          simp [extract_commit_info, primaryFields, commitsFallback, firstNonEmpty]

theorem splitOnceEq_append (algo hex : List Char) (ha : '=' ∉ algo) :
    splitOnceEq (algo ++ '=' :: hex) = some (algo, hex) := by
  induction algo with
  | nil => simp [splitOnceEq]
  | cons c cs ih =>
    have hc : ¬ c = '=' := by
      intro h
      exact ha (h ▸ List.mem_cons_self c cs)
    have hrest : '=' ∉ cs := fun h => ha (List.mem_cons_of_mem _ h)
    simp [splitOnceEq, hc, ih hrest]

/-- C6: with a (non-empty) secret configured, the CI verifier accepts a
header `algo=hexdigest` exactly when the algorithm token lowercases to
`sha1` or `sha256` and the digest equals the corresponding HMAC of the
body keyed by the secret (the code compares them with the constant-time
`hmac.compare_digest`, functionally string equality); any other
algorithm token is rejected. -/
theorem verify_github_signature_with_secret (h : HmacImpl) (s body : String)
    (algo hex : List Char) (hs : ¬ s = "") (ha : '=' ∉ algo) :
    verify_github_signature h (some s) body (String.mk (algo ++ '=' :: hex)) = true ↔
      ((lowerEq algo "sha1".data = true ∧ (h.sha1 s body).data = hex) ∨
        (lowerEq algo "sha256".data = true ∧ (h.sha256 s body).data = hex)) := by
  unfold verify_github_signature
  have hd : (String.mk (algo ++ '=' :: hex)).data = algo ++ '=' :: hex := rfl
  rw [hd, splitOnceEq_append algo hex ha]
  simp only [Option.getD_some]
  rw [if_neg hs]
  by_cases h1 : lowerEq algo "sha1".data = true
  · have h2 : lowerEq algo "sha256".data = false := by
      unfold lowerEq at h1 ⊢
      rw [beq_iff_eq] at h1
      rw [h1]
      decide
    simp [h1, h2, beq_iff_eq]
  · by_cases h2 : lowerEq algo "sha256".data = true
    · simp [h1, h2, beq_iff_eq]
    · simp [h1, h2]

/-- C6 witness at secret `"k"`, body `"x"`, header `sha256=bb`. -/
theorem verify_github_signature_with_secret_witness :
    (¬ ("k" : String) = "" ∧ '=' ∉ "sha256".data) ∧
      (verify_github_signature hmacConst (some "k") "x"
          (String.mk ("sha256".data ++ '=' :: "bb".data)) = true ↔
        ((lowerEq "sha256".data "sha1".data = true ∧
            (hmacConst.sha1 "k" "x").data = "bb".data) ∨
          (lowerEq "sha256".data "sha256".data = true ∧
            (hmacConst.sha256 "k" "x").data = "bb".data))) :=
  ⟨⟨by decide, by decide⟩,
    verify_github_signature_with_secret hmacConst "k" "x" "sha256".data "bb".data
      (by decide) (by decide)⟩

theorem update_task_status_idem (store : List TaskRec) (rid : String) (st : TaskStatus) :
    update_task_status (update_task_status store rid st) rid st =
      update_task_status store rid st := by
  induction store with
  | nil => rfl
  | cons t ts ih =>
    simp only [update_task_status, List.map_cons] at ih ⊢
    rw [ih]
    by_cases hr : t.record_id = rid
    · simp [hr]
    · simp [hr]

/-- C8: the CI-result transition is idempotent for terminal verdicts:
applying (task, Green, sha) — likewise Red — twice to the task store
yields the same store (hence the same final task status) as applying it
once, and the second application is an ordinary total computation (it
cannot throw). -/
theorem applyCIResult_idempotent (store : List TaskRec) (task : TaskRec)
    (commit_sha repo : String) (c : CIState)
    (hc : c = CIState.green ∨ c = CIState.red) :
    (applyCIResult ((applyCIResult store task (some c) commit_sha repo).store)
        task (some c) commit_sha repo).store =
      (applyCIResult store task (some c) commit_sha repo).store := by
  rcases hc with rfl | rfl
  · simp [applyCIResult, update_task_status_idem]
  · simp [applyCIResult, update_task_status_idem]

/-- C8 witness: one concrete Green double application. -/
theorem applyCIResult_idempotent_witness :
    (CIState.green = CIState.green ∨ CIState.green = CIState.red) ∧
      (applyCIResult ((applyCIResult [⟨"r1", some "abc", some "oc", some "Assigned",
            some "u1", some "t", some 5⟩] ⟨"r1", some "abc", some "oc", some "Assigned",
            some "u1", some "t", some 5⟩ (some CIState.green) "abc" "repo").store)
          ⟨"r1", some "abc", some "oc", some "Assigned", some "u1", some "t", some 5⟩
          (some CIState.green) "abc" "repo").store =
        (applyCIResult [⟨"r1", some "abc", some "oc", some "Assigned", some "u1",
            some "t", some 5⟩] ⟨"r1", some "abc", some "oc", some "Assigned", some "u1",
            some "t", some 5⟩ (some CIState.green) "abc" "repo").store :=
  ⟨Or.inl rfl,
    applyCIResult_idempotent _ _ "abc" "repo" CIState.green (Or.inl rfl)⟩

/-- C1 (amended): a verified `check_suite` event with a non-empty commit
SHA for which no task exists is acknowledged with 200 ("No task found
for commit SHA"), with no task record mutated and no chat message sent —
not with 400 as claimed (400 is reserved for a missing SHA). -/
theorem ci_unknown_sha_ack (h : HmacImpl) (secret : Option String)
    (store : List TaskRec) (req : CIRequest)
    (hv : verify_github_signature h secret req.body req.signature = true)
    (he : req.event = "check_suite")
    (hsha : ¬ (extract_commit_info req.payload).sha = "")
    (ht : get_task_by_commit store (extract_commit_info req.payload).sha = none) :
    github_webhook_endpoint h secret store req = ⟨200, store, []⟩ := by
  simp [github_webhook_endpoint, hv, he, hsha, ht]

/-- C1 counterexample: on an empty task store, the request above yields
a non-empty SHA with no matching task, and the dispatcher responds 200
(store untouched, no message) — not 400 as the claim states. -/
theorem ci_unknown_sha_counterexample :
    (extract_commit_info reqUnknownSha.payload).sha = "deadbee1234" ∧
      get_task_by_commit ([] : List TaskRec)
        (extract_commit_info reqUnknownSha.payload).sha = none ∧
      github_webhook_endpoint hmacConst none [] reqUnknownSha = ⟨200, [], []⟩ ∧
      ¬ (github_webhook_endpoint hmacConst none [] reqUnknownSha).status = 400 := by
  decide

/-- C1 witness: the amended statement at the concrete request above. -/
theorem ci_unknown_sha_ack_witness :
    (verify_github_signature hmacConst none reqUnknownSha.body reqUnknownSha.signature = true ∧
        reqUnknownSha.event = "check_suite" ∧
        ¬ (extract_commit_info reqUnknownSha.payload).sha = "" ∧
        get_task_by_commit ([] : List TaskRec)
          (extract_commit_info reqUnknownSha.payload).sha = none) ∧
      github_webhook_endpoint hmacConst none [] reqUnknownSha = ⟨200, [], []⟩ :=
  ⟨⟨by decide, by decide, by decide, by decide⟩,
    ci_unknown_sha_ack hmacConst none [] reqUnknownSha
      (by decide) (by decide) (by decide) (by decide)⟩

/-- C7: a verified `check_suite` event whose normalized state is Pending
or Unknown and whose SHA resolves to a task leaves the store unchanged,
sends no message, and is acknowledged with 200. -/
theorem ci_pending_unknown_noop (h : HmacImpl) (secret : Option String)
    (store : List TaskRec) (req : CIRequest) (task : TaskRec)
    (hv : verify_github_signature h secret req.body req.signature = true)
    (he : req.event = "check_suite")
    (hsha : ¬ (extract_commit_info req.payload).sha = "")
    (ht : get_task_by_commit store (extract_commit_info req.payload).sha = some task)
    (hst : parse_github_status req.payload = some CIState.pending ∨
      parse_github_status req.payload = some CIState.unknown) :
    github_webhook_endpoint h secret store req = ⟨200, store, []⟩ := by
  rcases hst with hst | hst <;>
    simp [github_webhook_endpoint, hv, he, hsha, ht, hst, applyCIResult]

/-- C7 witness: the pending event above against a store holding the task. -/
theorem ci_pending_unknown_noop_witness :
    (verify_github_signature hmacConst none reqQueued.body reqQueued.signature = true ∧
        reqQueued.event = "check_suite" ∧
        ¬ (extract_commit_info reqQueued.payload).sha = "" ∧
        get_task_by_commit [taskAbc] (extract_commit_info reqQueued.payload).sha =
          some taskAbc ∧
        (parse_github_status reqQueued.payload = some CIState.pending ∨
          parse_github_status reqQueued.payload = some CIState.unknown)) ∧
      github_webhook_endpoint hmacConst none [taskAbc] reqQueued = ⟨200, [taskAbc], []⟩ :=
  ⟨⟨by decide, by decide, by decide, by decide, Or.inl (by decide)⟩,
    ci_pending_unknown_noop hmacConst none [taskAbc] reqQueued taskAbc
      (by decide) (by decide) (by decide) (by decide) (Or.inl (by decide))⟩

theorem sweepStep_eq (now : Nat) (t : TaskRec) (hok : statusOkB t = true) :
    sweepStep now t =
      if sweepEligible now t = true then
        some (t.child_chat_id.getD "", reminderText t)
      else none := by
  unfold sweepStep sweepEligible sweepDue hasContacts
  cases hlm : t.last_modified_time with
  | none => simp [hok]
  | some lm =>
    by_cases h0 : lm = 0
    · subst h0
      simp [hok]
    · by_cases hlt : 172800000 + lm < now
      · by_cases hch : t.child_chat_id.getD "" = ""
        · simp [hok, h0, hlt, hch]
        · by_cases has : t.assignee_id.getD "" = ""
          · simp [hok, h0, hlt, hch, has]
          · simp [hok, h0, hlt, hch, has]
      · simp [hok, h0, hlt]

/-- Characterization of the reminder loop alone (the behaviour the sweep
was written to have, reached only if the fetch succeeded): it sends
exactly the reminder messages of the eligible tasks, in task order, and
every reminder text mentions the task's assignee id. -/
theorem check_inactive_tasks_loop_characterization (now : Nat) (tasks : List TaskRec) :
    check_inactive_tasks_loop now tasks =
      (tasks.filter (sweepEligible now)).map
        (fun t => (t.child_chat_id.getD "", reminderText t)) ∧
      ∀ t : TaskRec, ∃ a b : String,
        reminderText t = a ++ t.assignee_id.getD "" ++ b := by
  constructor
  · induction tasks with
    | nil => rfl
    | cons t ts ih =>
      unfold check_inactive_tasks_loop at ih ⊢
      by_cases hok : statusOkB t = true
      · simp only [List.filter_cons, hok, if_true, List.filterMap_cons]
        rw [sweepStep_eq now t hok]
        by_cases hel : sweepEligible now t = true
        · simp [hel, ih]
        · simp [hel, ih]
      · have hel : sweepEligible now t = false := by
          unfold sweepEligible sweepDue
          simp [Bool.eq_false_iff.mpr hok]
        simp only [List.filter_cons, hok, hel, if_false, Bool.false_eq_true]
        simpa using ih
  · intro t
    exact ⟨reminderPre t, "\"></at>", rfl⟩

/-- C2 (code bug): `check_inactive_tasks` opens with
`bitable_client.get_all_tasks()`, but `get_all_tasks` is not among the
methods `BitableClient` defines, so every sweep run raises
`AttributeError` at its first statement, the blanket `except` swallows
it, and no reminder is ever sent — evaluated here at a backend holding
one task that is eligible under the claim (Assigned, 48-hours stale,
chat id and assignee present), for which the reminder loop, had it been
reached, would have sent exactly the one claimed reminder. -/
theorem sweep_fetch_error_no_reminders :
    "get_all_tasks" ∉ bitableClientMethods ∧
      sweepDue 345600001 taskDue = true ∧ hasContacts taskDue = true ∧
      check_inactive_tasks 345600001 [taskDue] = [] ∧
      check_inactive_tasks_loop 345600001 [taskDue] =
        [(taskDue.child_chat_id.getD "", reminderText taskDue)] := by
  refine ⟨by decide, by decide, by decide, rfl, ?_⟩
  rfl

/-- C5 (amended): a chat event request whose body does not contain the
url-verification challenge marker and which misses (or has falsy-empty)
any of the three `X-Lark-*` headers is rejected with the endpoint's
"Missing signature headers" 403 response, regardless of the other
header values and the body. -/
theorem chat_missing_headers_403 (sha1h : String → String) (sdk : String → Nat)
    (encrypt_key : Option String) (req : ChatRequest)
    (hm : hasMarker req.body = false)
    (hmiss : req.timestamp.getD "" = "" ∨ req.nonce.getD "" = "" ∨
      req.signature.getD "" = "") :
    feishu_event sha1h sdk encrypt_key req = ChatOutcome.forbiddenMissing ∧
      (feishu_event sha1h sdk encrypt_key req).status = 403 := by
  have h1 : feishu_event sha1h sdk encrypt_key req = ChatOutcome.forbiddenMissing := by
    unfold feishu_event
    simp [hm, hmiss]
  exact ⟨h1, by rw [h1]; rfl⟩

/-- C5 counterexample: a request missing all three headers whose body is
a url-verification challenge is not rejected with 403 — the endpoint
routes it to the SDK before any header check, and the SDK answers the
challenge with its own (success) status. -/
theorem chat_challenge_counterexample :
    reqChallengeNoHeaders.timestamp = none ∧ reqChallengeNoHeaders.nonce = none ∧
      reqChallengeNoHeaders.signature = none ∧
      feishu_event sha1Const sdkConst none reqChallengeNoHeaders =
        ChatOutcome.sdkChallenge 200 ∧
      ¬ (feishu_event sha1Const sdkConst none reqChallengeNoHeaders).status = 403 := by
  decide

/-- C5 witness: the amended statement at the concrete request above. -/
theorem chat_missing_headers_403_witness :
    (hasMarker reqNoTimestamp.body = false ∧
        (reqNoTimestamp.timestamp.getD "" = "" ∨ reqNoTimestamp.nonce.getD "" = "" ∨
          reqNoTimestamp.signature.getD "" = "")) ∧
      (feishu_event sha1Const sdkConst none reqNoTimestamp =
          ChatOutcome.forbiddenMissing ∧
        (feishu_event sha1Const sdkConst none reqNoTimestamp).status = 403) :=
  ⟨⟨by decide, Or.inl (by decide)⟩,
    chat_missing_headers_403 sha1Const sdkConst none reqNoTimestamp
      (by decide) (Or.inl (by decide))⟩

/-- C10: with no encrypt key configured, the chat endpoint still
enforces signature verification on every non-challenge request with
complete headers: it computes the SHA-1 of timestamp ‖ nonce ‖ empty
string ‖ body, responds 403 ("Signature verification failed") whenever
the signature header differs from that digest, and only on a match
hands the event to the SDK. -/
theorem chat_no_key_enforces (sha1h : String → String) (sdk : String → Nat)
    (req : ChatRequest) (hm : hasMarker req.body = false)
    (ht : ¬ req.timestamp.getD "" = "") (hn : ¬ req.nonce.getD "" = "")
    (hs : ¬ req.signature.getD "" = "") :
    (¬ req.signature.getD "" =
        sha1h (req.timestamp.getD "" ++ req.nonce.getD "" ++ "" ++ req.body) →
      feishu_event sha1h sdk none req = ChatOutcome.forbiddenBadSig ∧
        (feishu_event sha1h sdk none req).status = 403) ∧
      (req.signature.getD "" =
          sha1h (req.timestamp.getD "" ++ req.nonce.getD "" ++ "" ++ req.body) →
        feishu_event sha1h sdk none req = ChatOutcome.sdkEvent (sdk req.body)) := by
  have hkey : (none : Option String).getD "" = "" := rfl
  constructor
  · intro hsig
    have h1 : feishu_event sha1h sdk none req = ChatOutcome.forbiddenBadSig := by
      unfold feishu_event
      rw [if_neg (by simp [hm]), if_neg (by simp [ht, hn, hs])]
      dsimp only
      simp only [hkey]
      rw [if_pos hsig]
    exact ⟨h1, by rw [h1]; rfl⟩
  · intro hsig
    unfold feishu_event
    rw [if_neg (by simp [hm]), if_neg (by simp [ht, hn, hs])]
    dsimp only
    simp only [hkey]
    rw [if_neg (not_not_intro hsig)]

/-- C10 witness: at the concrete request above (whose signature `xx`
differs from the digest `dd`), the endpoint with no encrypt key rejects
with 403. -/
theorem chat_no_key_enforces_witness :
    (hasMarker reqBadSig.body = false ∧ ¬ reqBadSig.timestamp.getD "" = "" ∧
        ¬ reqBadSig.nonce.getD "" = "" ∧ ¬ reqBadSig.signature.getD "" = "" ∧
        ¬ reqBadSig.signature.getD "" =
          sha1Const (reqBadSig.timestamp.getD "" ++ reqBadSig.nonce.getD "" ++ "" ++
            reqBadSig.body)) ∧
      (feishu_event sha1Const sdkConst none reqBadSig = ChatOutcome.forbiddenBadSig ∧
        (feishu_event sha1Const sdkConst none reqBadSig).status = 403) :=
  ⟨⟨by decide, by decide, by decide, by decide, by decide⟩,
    (chat_no_key_enforces sha1Const sdkConst reqBadSig
        (by decide) (by decide) (by decide) (by decide)).1 (by decide)⟩
